import Mathlib

/-!
Shallow embedding of `src/desktop.py` (ABOLFAZL-DESKTOP shell), the variant
shipped in this repository.  The embedding models the JS⇄host bridge
dispatcher (`DesktopShell.on_js_message`), the action handlers it dispatches
to, and the Wnck event wiring of `init_screen`.  Observable behaviour -- the
process spawns, file writes, injected-JS callback invocations, log lines, and
window-manager API calls each handler performs -- is reified as a list of
`Effect` values produced in program order.  Python exceptions that escape a
handler are modelled with `Except PyError`; exceptions the source catches
locally are folded into the corresponding log effect, exactly where the
source catches them.
-/

set_option autoImplicit false

/-- JSON values, the payload language of the bridge.  Objects are the
association lists produced by `json.loads` (keys unique after parsing). -/
inductive Json where
  | null
  | bool (b : Bool)
  | num (n : Int)
  | str (s : String)
  | arr (elems : List Json)
  | obj (fields : List (String × Json))

/-- Python truthiness of a JSON value (`if bg:`, `if not cmd:` tests in the
source): `None`, `False`, `0`, `""`, `[]`, `{}` are falsy. -/
def Json.truthy : Json → Bool
  | .null => false
  | .bool b => b
  | .num n => n != 0
  | .str s => !s.isEmpty
  | .arr elems => !elems.isEmpty
  | .obj fields => !fields.isEmpty

/-- `dict.get` on the association list of a parsed JSON object. -/
def lookupField : List (String × Json) → String → Option Json
  | [], _ => none
  | (k, v) :: rest, key => if k == key then some v else lookupField rest key

/-- Python `str()` of a scalar JSON value, as used by the f-string
`f"file://\x7bbg\x7d"` at desktop.py:286.  Container values are abstracted to
`""`: the source only ever writes a string under the `wallpaper` key
(desktop.py:270), and no claim exercises a container-valued entry. -/
def pyStr : Json → String
  | .str s => s
  | .null => "None"
  | .bool true => "True"
  | .bool false => "False"
  | .num n => toString n
  | .arr _ => ""
  | .obj _ => ""

/-- Lower-casing as Python `str.lower` on the ASCII class/command strings the
shell handles. -/
def pyLower (s : String) : String := String.mk (s.data.map Char.toLower)

/-- `needle` is a leading segment of `hay` (helper for Python `in`). -/
def strLeads : List Char → List Char → Bool
  | [], _ => true
  | _ :: _, [] => false
  | a :: as, b :: bs => a == b && strLeads as bs

/-- Contiguous-substring test, Python `needle in hay` on strings. -/
def strIn (needle : String) (hay : String) : Bool :=
  go needle.toList hay.toList
where
  go (n : List Char) : List Char → Bool
    | [] => n.isEmpty
    | c :: rest => strLeads n (c :: rest) || go n rest

/-- Python exceptions that can escape a handler into the bridge dispatcher. -/
inductive PyError where
  | jsonDecodeError
  | attributeError
  | typeError
  | gtkError
deriving DecidableEq

/-- State of a JSON file on disk as a handler observes it: absent, present
but failing to read or parse, or successfully parsed to a value. -/
inductive FileState where
  | absent
  | unreadable
  | content (j : Json)

/-- The deferred work `GLib.idle_add` can be handed in this program. -/
inductive ScheduledTask where
  | updateRunningAppsTask
deriving DecidableEq

/-- Observable actions of the shell, in program order. -/
inductive Effect where
  /-- `subprocess.Popen(argv)` without `shell=True` (power commands). -/
  | spawn (argv : List String)
  /-- `subprocess.Popen(cmd, shell=True)` (app launch). -/
  | spawnShell (cmd : Json)
  /-- `Path.write_text` of serialized JSON. -/
  | fileWrite (path : String) (contents : Json)
  /-- Injected-JS call `name(arg)` via `run_js_safe`, guarded by the
  `window.name &&` existence check. -/
  | callback (name : String) (arg : Json)
  | logWarning (msg : String)
  | logDebug (msg : String)
  /-- `shutil.which(exe)`. -/
  | pathLookup (exe : String)
  /-- `Wnck.Screen.force_update`, a synchronous window-manager query. -/
  | forceUpdate
  /-- Reading window `idx`'s class name inside the focus loop. -/
  | examine (idx : Nat)
  /-- `w.activate(...)` on window `idx`. -/
  | activateWindow (idx : Nat)
  /-- `GLib.idle_add(task)`: defer `task` to a later main-loop iteration. -/
  | scheduleIdle (t : ScheduledTask)

/-- A window-manager API call (Wnck query or mutation), as opposed to
logging, scheduling, spawning, or file/JS traffic. -/
def Effect.isWmApiCall : Effect → Bool
  | .forceUpdate => true
  | .examine _ => true
  | .activateWindow _ => true
  | _ => false

/-! ## Power handler, desktop.py:209-228 -/

/-- The `commands` table of `handle_power_command` combined with dict
membership: `some argv` exactly when `cmd` is one of the three mapped keys. -/
def powerArgv : Option Json → Option (List String)
  | some (Json.str "shutdown") => some ["systemctl", "poweroff"]
  | some (Json.str "restart") => some ["systemctl", "reboot"]
  | some (Json.str "sleep") => some ["systemctl", "suspend"]
  | _ => none

/-- Dict membership `cmd not in commands` raises `TypeError` when `cmd` is
unhashable (a decoded JSON array or object). -/
def hashableCmd : Option Json → Bool
  | some (Json.arr _) => false
  | some (Json.obj _) => false
  | _ => true

/-- `DesktopShell.handle_power_command` (desktop.py:209-228).
`avail` is whether `shutil.which("systemctl")` resolves.  An unmapped
hashable `cmd` returns before any lookup; a mapped one performs the PATH
lookup, then either warns (binary absent) or spawns the mapped two-token
argv via non-waiting `Popen` (spawn failure is caught and logged inside the
handler, which the spawn effect abstracts over). -/
def handle_power_command (cmd : Option Json) (avail : Bool) :
    Except PyError (List Effect) :=
  if hashableCmd cmd then
    match powerArgv cmd with
    | none => .ok []
    | some argv =>
      if avail then .ok [Effect.pathLookup "systemctl", Effect.spawn argv]
      else .ok [Effect.pathLookup "systemctl",
                Effect.logWarning "systemctl not available"]
  else .error .typeError

/-! ## Wallpaper handlers, desktop.py:248-292 -/

/-- Outcome of `dialog.run()` in the background picker: confirmation with a
selected path, cancellation, or the GTK call raising. -/
inductive DialogOutcome where
  | confirm (path : String)
  | cancel
  | raises

/-- `DesktopShell.handle_open_bg_picker` (desktop.py:248-277).
`writeOk` is whether `config_file.write_text` succeeds; on failure the
handler logs a warning and leaves the callback unpushed (desktop.py:275-276).
Returns the resulting config-file state together with the effects. -/
def handle_open_bg_picker (outcome : DialogOutcome) (writeOk : Bool)
    (cfg : FileState) : Except PyError (FileState × List Effect) :=
  match outcome with
  | .raises => .error .gtkError
  | .cancel => .ok (cfg, [])
  | .confirm path =>
    if writeOk then
      .ok (FileState.content (Json.obj [("wallpaper", Json.str path)]),
           [Effect.fileWrite "config.json"
              (Json.obj [("wallpaper", Json.str path)]),
            Effect.callback "applyBackground"
              (Json.str ("file://" ++ path))])
    else
      .ok (cfg, [Effect.logWarning "Wallpaper save failed"])

/-- `DesktopShell.handle_get_saved_background` (desktop.py:279-292).
The whole read is wrapped in `try/except Exception: pass`, so an absent,
unreadable, or non-object file leaves `bg = None`; a present `wallpaper`
value gets the `file://` prefix only when truthy, and the callback is always
invoked with the resulting value. -/
def handle_get_saved_background (cfg : FileState) : List Effect :=
  let bg : Option Json :=
    match cfg with
    | .absent => none
    | .unreadable => none
    | .content j =>
      match j with
      | .obj fields => lookupField fields "wallpaper"
      | _ => none
  let arg : Json :=
    match bg with
    | none => Json.null
    | some v => if v.truthy then Json.str ("file://" ++ pyStr v) else v
  [Effect.callback "receiveSavedBackground" arg]

/-! ## Dock handler, desktop.py:297-308 (manual only: no discovery) -/

/-- `DesktopShell.handle_get_dock_apps` (desktop.py:297-308).  `apps` starts
as `[]`; if `dock.json` exists and parses it replaces `apps` verbatim, a
parse failure is debug-logged; the result is always sent via
`receiveDockData`.  No application discovery exists in this variant
(`# فقط داک دستی` / "Dock (Manual Only)"). -/
def handle_get_dock_apps (dockFile : FileState) : List Effect :=
  match dockFile with
  | .absent => [Effect.callback "receiveDockData" (Json.arr [])]
  | .unreadable =>
    [Effect.logDebug "Failed to load dock.json",
     Effect.callback "receiveDockData" (Json.arr [])]
  | .content j => [Effect.callback "receiveDockData" j]

/-! ## Launch / focus handlers, desktop.py:313-339 -/

/-- `DesktopShell.handle_launch_app` (desktop.py:313-325).  Falsy or absent
command is a no-op; otherwise the command is handed to a shell-interpreted,
non-waiting `Popen` whose failure is caught and debug-logged inside the
handler (the spawn effect abstracts over that inner try). -/
def handle_launch_app (cmd : Option Json) : List Effect :=
  match cmd with
  | none => []
  | some v => if v.truthy then [Effect.spawnShell v] else []

/-- One step of the focus loop (desktop.py:333-339): examine window `i`'s
class name; on a substring hit activate it and stop, else continue.
`target` is already lower-cased; a `None` class name reads as `""`.
The per-window `try/except: pass` is vacuous here since the pure reads
cannot raise. -/
def focusLoop (target : String) : List (Option String) → Nat → List Effect
  | [], _ => []
  | w :: ws, i =>
    Effect.examine i ::
      (if strIn target (pyLower (w.getD "")) then [Effect.activateWindow i]
       else focusLoop target ws (i + 1))

/-- `DesktopShell.handle_focus_app` (desktop.py:327-339).  `screen` is
`none` when Wnck tracking is unavailable, else the tracked windows' class
names in enumeration order.  Guard first: no screen or falsy command
returns before any Wnck call.  A truthy non-string command raises
`AttributeError` at `cmd.lower()` (desktop.py:332), after the
`force_update` call, which the error abstracts away. -/
def handle_focus_app (cmd : Option Json) (screen : Option (List (Option String))) :
    Except PyError (List Effect) :=
  match screen with
  | none => .ok []
  | some ws =>
    match cmd with
    | none => .ok []
    | some v =>
      if v.truthy then
        match v with
        | .str s => .ok (Effect.forceUpdate :: focusLoop (pyLower s) ws 0)
        | _ => .error .attributeError
      else .ok []

/-- Index of the first tracked window whose lower-cased class name contains
`target` as a substring (the window `handle_focus_app` activates). -/
def findMatchIdx (target : String) : List (Option String) → Option Nat
  | [] => none
  | w :: ws =>
    if strIn target (pyLower (w.getD "")) then some 0
    else (findMatchIdx target ws).map (· + 1)

/-! ## Icon helper and power-icon sender, desktop.py:230-243 and 344-355 -/

/-- `DesktopShell.get_system_icon_path` (desktop.py:344-355).  `lookup`
models `Gtk.IconTheme.lookup_icon(name, 48, 0)` returning the icon file
path when found; lookup failure or an empty name yields `""`. -/
def get_system_icon_path (lookup : String → Option String) (iconName : String) :
    String :=
  if iconName.isEmpty then ""
  else
    match lookup iconName with
    | some f => "file://" ++ f
    | none => ""

/-- `DesktopShell.send_power_icons` (desktop.py:230-243). -/
def send_power_icons (lookup : String → Option String) : List Effect :=
  [Effect.callback "receivePowerIcons" (Json.obj
    [("shutdown", Json.str (get_system_icon_path lookup "system-shutdown")),
     ("restart", Json.str (get_system_icon_path lookup "view-refresh")),
     ("sleep", Json.str (get_system_icon_path lookup "system-suspend"))])]

/-! ## Running-apps tracker, desktop.py:101-137 -/

/-- A Wnck window as the tracker observes it: class-group name (possibly
`None`) and whether `get_window_type()` is `Wnck.WindowType.NORMAL`. -/
structure WmWindow where
  className : Option String
  isNormal : Bool

/-- First-occurrence de-duplication, modelling the Python `set`
comprehension of desktop.py:126-130 (set iteration order is unspecified in
Python; the first-occurrence order is one enumeration of that set). -/
def dedupFirst : List String → List String
  | [] => []
  | s :: rest =>
    if (dedupFirst rest).contains s then dedupFirst rest
    else s :: dedupFirst rest

/-- `DesktopShell.update_running_apps` (desktop.py:120-137): no-op when
tracking is disabled, else a `force_update`, the lower-cased de-duplicated
class names of normal windows, and the `updateRunningIndicators` push.  The
handler's own `try/except` debug-logs any Wnck failure, which the pure
reads cannot produce; it returns `False` so the idle source never repeats. -/
def update_running_apps (screen : Option (List WmWindow)) : List Effect :=
  match screen with
  | none => []
  | some ws =>
    let running := dedupFirst (ws.filterMap fun w =>
      if w.isNormal then some (pyLower (w.className.getD "")) else none)
    [Effect.forceUpdate,
     Effect.callback "updateRunningIndicators" (Json.arr (running.map Json.str))]

/-- The three Wnck signals `init_screen` connects (desktop.py:110-115). -/
inductive WmEvent where
  | windowOpened
  | windowClosed
  | activeWindowChanged

/-- The signal callbacks installed by `DesktopShell.init_screen`
(desktop.py:110-115): each is the literal lambda
`lambda *_: GLib.idle_add(self.update_running_apps)`, whose sole action is
to schedule the recompute on the main loop. -/
def init_screen_event_callback (e : WmEvent) : List Effect :=
  match e with
  | .windowOpened => [Effect.scheduleIdle ScheduledTask.updateRunningAppsTask]
  | .windowClosed => [Effect.scheduleIdle ScheduledTask.updateRunningAppsTask]
  | .activeWindowChanged =>
    [Effect.scheduleIdle ScheduledTask.updateRunningAppsTask]

/-- What a scheduled task does when the main loop later runs it. -/
def runScheduledTask (t : ScheduledTask) (screen : Option (List WmWindow)) :
    List Effect :=
  match t with
  | .updateRunningAppsTask => update_running_apps screen

/-! ## Bridge dispatcher, desktop.py:183-204 -/

/-- The ambient state a bridge message is handled against. -/
structure Env where
  configFile : FileState
  dockFile : FileState
  /-- `none` when Wnck tracking is unavailable, else the tracked windows'
  class names in enumeration order (as `handle_focus_app` consumes them). -/
  screen : Option (List (Option String))
  systemctlAvailable : Bool
  dialogOutcome : DialogOutcome
  writeOk : Bool
  iconLookup : String → Option String

/-- An inbound bridge payload: the raw string either fails `json.loads`
or decodes to a JSON value. -/
inductive Payload where
  | malformed
  | parsed (data : Json)

/-- `data.get(key)` (desktop.py:188, 195-197): `AttributeError` on a
non-object, else the optional field value. -/
def jsonDictGet (j : Json) (key : String) : Except PyError (Option Json) :=
  match j with
  | .obj fields => .ok (lookupField fields key)
  | _ => .error .attributeError

/-- The keys of the `handlers` dict (desktop.py:190-198). -/
def registeredActions : List String :=
  ["get_dock_apps", "get_power_icons", "open_bg_picker",
   "get_saved_background", "launch_app", "focus_app", "power_command"]

/-- Whether an action string has a registered handler. -/
def registeredAction (s : String) : Bool := registeredActions.contains s

/-- Result of a dispatched handler: the config-file state afterwards (the
only state a handler can change, via the picker) and the effects. -/
structure HandlerOut where
  config : FileState
  effects : List Effect

/-- The body of the `try` block of `on_js_message` (desktop.py:185-201):
decode, fetch `action`, test `action in handlers`, invoke.  Errors are the
exceptions that reach the enclosing `except`: decode failure, `.get` on a
non-object, `action in handlers` on an unhashable value, or a handler
raising. -/
def dispatchInner (env : Env) (p : Payload) : Except PyError HandlerOut :=
  match p with
  | .malformed => .error .jsonDecodeError
  | .parsed data => do
    let action ← jsonDictGet data "action"
    match action with
    | some (Json.arr _) => .error .typeError
    | some (Json.obj _) => .error .typeError
    | some (Json.str s) =>
      if s = "get_dock_apps" then
        .ok ⟨env.configFile, handle_get_dock_apps env.dockFile⟩
      else if s = "get_power_icons" then
        .ok ⟨env.configFile, send_power_icons env.iconLookup⟩
      else if s = "open_bg_picker" then do
        let (cfg, effs) ←
          handle_open_bg_picker env.dialogOutcome env.writeOk env.configFile
        .ok ⟨cfg, effs⟩
      else if s = "get_saved_background" then
        .ok ⟨env.configFile, handle_get_saved_background env.configFile⟩
      else if s = "launch_app" then do
        let cmd ← jsonDictGet data "command"
        .ok ⟨env.configFile, handle_launch_app cmd⟩
      else if s = "focus_app" then do
        let cmd ← jsonDictGet data "command"
        let effs ← handle_focus_app cmd env.screen
        .ok ⟨env.configFile, effs⟩
      else if s = "power_command" then do
        let cmd ← jsonDictGet data "command"
        let effs ← handle_power_command cmd env.systemctlAvailable
        .ok ⟨env.configFile, effs⟩
      else .ok ⟨env.configFile, []⟩
    | _ => .ok ⟨env.configFile, []⟩

/-- `DesktopShell.on_js_message` (desktop.py:183-204): the dispatch body
wrapped in `try/except Exception`, whose handler only debug-logs.  The
codomain keeps `Except` to state propagation: the function always returns
`.ok`. -/
def on_js_message (env : Env) (p : Payload) : Except PyError HandlerOut :=
  match dispatchInner env p with
  | .ok out => .ok out
  | .error _ => .ok ⟨env.configFile, [Effect.logDebug "Bridge message error"]⟩

/-- A quiescent environment for concrete evaluations. -/
def sampleEnv : Env :=
  Env.mk FileState.absent FileState.absent none false DialogOutcome.cancel
    true (fun _ => none)

/-! ## Helper lemmas -/

theorem except_ok_bind {ε α β : Type} (a : α) (f : α → Except ε β) :
    (Except.ok a : Except ε α) >>= f = f a := rfl

theorem except_error_bind {ε α β : Type} (e : ε) (f : α → Except ε β) :
    (Except.error e : Except ε α) >>= f = Except.error e := rfl

/-! ## Claim theorems -/

/-- C1 counterexample: with the curated dock file absent -- the fallback
scenario of the claim, with any entry files on disk, which are not even an
input of this handler -- the handler sends the empty array, not the single
de-duplicated `exec = "bar"` entry the claimed discovery fallback would
yield. -/
theorem dock_absent_counterexample :
    handle_get_dock_apps FileState.absent =
      [Effect.callback "receiveDockData" (Json.arr [])] ∧
    handle_get_dock_apps FileState.absent ≠
      [Effect.callback "receiveDockData"
        (Json.arr [Json.obj [("id", Json.str "bar"), ("name", Json.str "bar"),
                             ("icon", Json.str "bar"), ("exec", Json.str "bar"),
                             ("icon_path", Json.str "")]])] := by
  refine ⟨rfl, ?_⟩
  simp [handle_get_dock_apps]

/-- C1 (amended): when the curated dock file exists and parses, its entries
are returned verbatim via `receiveDockData`; when it is absent the handler
sends the empty array, and when it fails to parse it debug-logs and sends
the empty array -- no application discovery is performed in this variant. -/
theorem dock_manual_only (j : Json) :
    handle_get_dock_apps (FileState.content j) =
      [Effect.callback "receiveDockData" j] ∧
    handle_get_dock_apps FileState.absent =
      [Effect.callback "receiveDockData" (Json.arr [])] ∧
    handle_get_dock_apps FileState.unreadable =
      [Effect.logDebug "Failed to load dock.json",
       Effect.callback "receiveDockData" (Json.arr [])] :=
  ⟨rfl, rfl, rfl⟩

/-- C3: a config file holding a `wallpaper` entry `/tmp/x.png` yields the
callback with `file:///tmp/x.png`; an absent file, an unreadable file, or an
object lacking the key all still invoke the callback, with `null`, and the
handler (a total function into effect lists) raises no error. -/
theorem get_saved_background_cases :
    handle_get_saved_background
        (FileState.content (Json.obj [("wallpaper", Json.str "/tmp/x.png")])) =
      [Effect.callback "receiveSavedBackground" (Json.str "file:///tmp/x.png")] ∧
    handle_get_saved_background FileState.absent =
      [Effect.callback "receiveSavedBackground" Json.null] ∧
    handle_get_saved_background FileState.unreadable =
      [Effect.callback "receiveSavedBackground" Json.null] ∧
    ∀ fields, lookupField fields "wallpaper" = none →
      handle_get_saved_background (FileState.content (Json.obj fields)) =
        [Effect.callback "receiveSavedBackground" Json.null] := by
  refine ⟨rfl, rfl, rfl, ?_⟩
  intro fields h
  simp [handle_get_saved_background, h]

/-- Witness for C3's missing-key case at the concrete object
`\x7b"other": null\x7d`. -/
theorem get_saved_background_cases_witness :
    handle_get_saved_background
        (FileState.content (Json.obj [("other", Json.null)])) =
      [Effect.callback "receiveSavedBackground" Json.null] :=
  get_saved_background_cases.2.2.2 [("other", Json.null)] rfl

/-- C6: every inbound payload -- malformed JSON, a non-object, a missing
`action`, an unregistered action, or a handler that raises -- leaves
`on_js_message` returning normally (`Except.ok`); no exception propagates
to the rendering surface, and when the dispatch body did raise, the catch
block only debug-logs and leaves the state unchanged. -/
theorem bridge_never_propagates (env : Env) (p : Payload) :
    ∃ out, on_js_message env p = Except.ok out ∧
      ∀ e, dispatchInner env p = Except.error e →
        out = ⟨env.configFile, [Effect.logDebug "Bridge message error"]⟩ := by
  cases h : dispatchInner env p with
  | ok out =>
    refine ⟨out, by simp [on_js_message, h], ?_⟩
    intro e he
    simp [h] at he
  | error e => exact ⟨_, by simp [on_js_message, h], fun e2 _ => rfl⟩

/-- Witness for C6 at a malformed payload: the dispatch body raises a JSON
decode error and the bridge returns normally with only a debug log. -/
theorem bridge_never_propagates_witness :
    on_js_message sampleEnv Payload.malformed =
      Except.ok ⟨FileState.absent,
                 [Effect.logDebug "Bridge message error"]⟩ := by
  obtain ⟨out, hok, hlog⟩ :=
    bridge_never_propagates sampleEnv Payload.malformed
  rw [hok, hlog PyError.jsonDecodeError rfl]
  rfl

/-- C7: each Wnck signal callback installed by `init_screen` only schedules
the running-apps recompute via `GLib.idle_add`; it performs no
window-manager API call itself, and the scheduled task is exactly
`update_running_apps`, which runs on a later main-loop iteration. -/
theorem wm_event_callback_defers (e : WmEvent) :
    init_screen_event_callback e =
      [Effect.scheduleIdle ScheduledTask.updateRunningAppsTask] ∧
    (∀ eff ∈ init_screen_event_callback e, eff.isWmApiCall = false) ∧
    runScheduledTask ScheduledTask.updateRunningAppsTask =
      update_running_apps := by
  refine ⟨?_, ?_, rfl⟩ <;> cases e <;>
    simp [init_screen_event_callback, Effect.isWmApiCall]

/-- Witness for C7 at the window-opened event: the callback's single effect
is the idle-scheduling, and it is not a window-manager API call. -/
theorem wm_event_callback_defers_witness :
    init_screen_event_callback WmEvent.windowOpened =
      [Effect.scheduleIdle ScheduledTask.updateRunningAppsTask] ∧
    Effect.isWmApiCall
        (Effect.scheduleIdle ScheduledTask.updateRunningAppsTask) = false :=
  ⟨(wm_event_callback_defers WmEvent.windowOpened).1,
   (wm_event_callback_defers WmEvent.windowOpened).2.1
     (Effect.scheduleIdle ScheduledTask.updateRunningAppsTask)
     (List.Mem.head _)⟩

/-- C8: a confirmed picker (with the write succeeding) overwrites the config
file with exactly `\x7b"wallpaper": path\x7d` and pushes `applyBackground`
with the `file://`-prefixed URI; cancellation, under any write
disposition, performs no file write and leaves the prior config state
untouched. -/
theorem bg_picker_confirm_and_cancel (path : String) (cfg : FileState) :
    handle_open_bg_picker (DialogOutcome.confirm path) true cfg =
      Except.ok
        (FileState.content (Json.obj [("wallpaper", Json.str path)]),
         [Effect.fileWrite "config.json"
            (Json.obj [("wallpaper", Json.str path)]),
          Effect.callback "applyBackground"
            (Json.str ("file://" ++ path))]) ∧
    ∀ wk, handle_open_bg_picker DialogOutcome.cancel wk cfg =
      Except.ok (cfg, []) := by
  exact ⟨rfl, fun wk => rfl⟩

/-- C9: a config file with the `wallpaper` key bound to `""` yields the
callback with the empty string itself -- not `null` (the values differ) and
without the `file://` prefix, since the prefix is added only for truthy
values. -/
theorem empty_wallpaper_value :
    handle_get_saved_background
        (FileState.content (Json.obj [("wallpaper", Json.str "")])) =
      [Effect.callback "receiveSavedBackground" (Json.str "")] ∧
    Json.str "" ≠ Json.null := by
  refine ⟨rfl, ?_⟩
  simp

/-- C10: with tracking available, an absent or empty command token makes
`handle_focus_app` return before any Wnck call: no `force_update`, no
window examined, no activation -- the effect list is empty. -/
theorem focus_app_falsy_cmd_noop (ws : List (Option String)) (cmd : Option Json)
    (h : cmd = none ∨ cmd = some (Json.str "")) :
    handle_focus_app cmd (some ws) = Except.ok [] := by
  rcases h with h | h <;> subst h <;> rfl

/-- Witness for C10 at the empty command against one tracked window. -/
theorem focus_app_falsy_cmd_noop_witness :
    handle_focus_app (some (Json.str "")) (some [some "firefox"]) =
      Except.ok [] :=
  focus_app_falsy_cmd_noop [some "firefox"] (some (Json.str "")) (Or.inr rfl)

/-- C2: a parsed payload whose `action` field is a string with no
registered handler is silently dropped: the dispatch returns the config
state unchanged with an empty effect list -- no spawn, no file write, no
callback, not even a log line. -/
theorem unregistered_action_dropped (env : Env) (data : Json) (s : String)
    (hget : jsonDictGet data "action" = Except.ok (some (Json.str s)))
    (hreg : registeredAction s = false) :
    on_js_message env (Payload.parsed data) =
      Except.ok ⟨env.configFile, []⟩ := by
  simp [registeredAction, registeredActions] at hreg
  obtain ⟨d1, d2, d3, d4, d5, d6, d7⟩ := hreg
  simp [on_js_message, dispatchInner, hget, except_ok_bind,
    d1, d2, d3, d4, d5, d6, d7]

/-- Witness for C2 at the concrete action string `"frobnicate"`. -/
theorem unregistered_action_dropped_witness :
    on_js_message sampleEnv
        (Payload.parsed (Json.obj [("action", Json.str "frobnicate")])) =
      Except.ok ⟨FileState.absent, []⟩ :=
  unregistered_action_dropped sampleEnv
    (Json.obj [("action", Json.str "frobnicate")]) "frobnicate"
    (by rfl) (by decide)

/-- C4: an unmapped hashable input returns before the PATH lookup (no
spawn, no lookup, no warning; an unhashable input raises `TypeError`, which
the dispatcher's `except` absorbs into a debug log); a mapped input with
`systemctl` unresolvable performs the lookup, warns, and spawns nothing;
with it resolvable it spawns exactly the mapped fixed two-token argv via
non-waiting `Popen` -- `systemctl poweroff` for `shutdown`. -/
theorem power_command_cases (cmd : Option Json) :
    (powerArgv cmd = none → hashableCmd cmd = true →
       ∀ avail, handle_power_command cmd avail = Except.ok []) ∧
    (∀ argv, powerArgv cmd = some argv →
       handle_power_command cmd false =
         Except.ok [Effect.pathLookup "systemctl",
                    Effect.logWarning "systemctl not available"] ∧
       handle_power_command cmd true =
         Except.ok [Effect.pathLookup "systemctl", Effect.spawn argv]) ∧
    (∀ avail, hashableCmd cmd = false →
       handle_power_command cmd avail = Except.error PyError.typeError) ∧
    powerArgv (some (Json.str "shutdown")) = some ["systemctl", "poweroff"] ∧
    powerArgv (some (Json.str "restart")) = some ["systemctl", "reboot"] ∧
    powerArgv (some (Json.str "sleep")) = some ["systemctl", "suspend"] := by
  refine ⟨?_, ?_, ?_, by rfl, by rfl, by rfl⟩
  · intro hnone hhash avail
    simp [handle_power_command, hnone, hhash]
  · intro argv hsome
    have hhash : hashableCmd cmd = true := by
      cases cmd with
      | none => rfl
      | some v => cases v <;> simp_all [powerArgv, hashableCmd]
    constructor <;> simp [handle_power_command, hsome, hhash]
  · intro avail hhash
    simp [handle_power_command, hhash]

/-- Witness for C4: both dispositions of the mapped `shutdown` input and an
unmapped `hibernate` input, concretely. -/
theorem power_command_cases_witness :
    handle_power_command (some (Json.str "shutdown")) true =
      Except.ok [Effect.pathLookup "systemctl",
                 Effect.spawn ["systemctl", "poweroff"]] ∧
    handle_power_command (some (Json.str "shutdown")) false =
      Except.ok [Effect.pathLookup "systemctl",
                 Effect.logWarning "systemctl not available"] ∧
    handle_power_command (some (Json.str "hibernate")) true = Except.ok [] :=
  ⟨((power_command_cases (some (Json.str "shutdown"))).2.1
      ["systemctl", "poweroff"] (by rfl)).2,
   ((power_command_cases (some (Json.str "shutdown"))).2.1
      ["systemctl", "poweroff"] (by rfl)).1,
   (power_command_cases (some (Json.str "hibernate"))).1 (by rfl) (by rfl) true⟩

/-! ## Focus-loop characterization (for C5) -/

theorem examine_range_shift (i n : Nat) :
    ((List.range (n + 1)).map fun m => Effect.examine (i + m)) =
      Effect.examine i ::
        ((List.range n).map fun m => Effect.examine (i + 1 + m)) := by
  rw [List.range_succ_eq_map]
  simp only [List.map_cons, Nat.add_zero, List.map_map]
  have hf : ((fun m => Effect.examine (i + m)) ∘ Nat.succ) =
      fun m => Effect.examine (i + 1 + m) := by
    funext m
    simp only [Function.comp_apply]
    congr 1
    omega
  rw [hf]

theorem focusLoop_eq_of_found (target : String) (ws : List (Option String)) :
    ∀ i k, findMatchIdx target ws = some k →
      focusLoop target ws i =
        (((List.range (k + 1)).map fun m => Effect.examine (i + m)) ++
         [Effect.activateWindow (i + k)]) := by
  induction ws with
  | nil => intro i k h; simp [findMatchIdx] at h
  | cons w ws ih =>
    intro i k h
    by_cases hm : strIn target (pyLower (w.getD "")) = true
    · rw [findMatchIdx, if_pos hm] at h
      obtain rfl : (0 : Nat) = k := Option.some.inj h
      simp [focusLoop, hm, List.range_succ, List.range_zero]
    · rw [findMatchIdx, if_neg hm] at h
      obtain ⟨k0, hk0, rfl⟩ := Option.map_eq_some'.mp h
      rw [focusLoop, if_neg hm, ih (i + 1) k0 hk0]
      conv_rhs => rw [examine_range_shift i (k0 + 1)]
      rw [show i + (k0 + 1) = i + 1 + k0 by omega]
      simp [List.cons_append]

theorem focusLoop_eq_of_none (target : String) (ws : List (Option String)) :
    ∀ i, findMatchIdx target ws = none →
      focusLoop target ws i =
        ((List.range ws.length).map fun m => Effect.examine (i + m)) := by
  induction ws with
  | nil => intro i _; simp [focusLoop]
  | cons w ws ih =>
    intro i h
    by_cases hm : strIn target (pyLower (w.getD "")) = true
    · rw [findMatchIdx, if_pos hm] at h; cases h
    · rw [findMatchIdx, if_neg hm] at h
      rw [focusLoop, if_neg hm, ih (i + 1) (by simpa using h)]
      rw [List.length_cons]
      conv_rhs => rw [examine_range_shift i ws.length]

theorem findMatchIdx_matches (target : String) (ws : List (Option String)) :
    ∀ k, findMatchIdx target ws = some k →
      k < ws.length ∧
      strIn target (pyLower ((ws.getD k none).getD "")) = true ∧
      ∀ m, m < k → strIn target (pyLower ((ws.getD m none).getD "")) = false := by
  induction ws with
  | nil => intro k h; simp [findMatchIdx] at h
  | cons w ws ih =>
    intro k h
    by_cases hm : strIn target (pyLower (w.getD "")) = true
    · rw [findMatchIdx, if_pos hm] at h
      obtain rfl : (0 : Nat) = k := Option.some.inj h
      exact ⟨by simp, by simpa using hm, fun m hmk => absurd hmk (by omega)⟩
    · rw [findMatchIdx, if_neg hm] at h
      obtain ⟨k0, hk0, rfl⟩ := Option.map_eq_some'.mp h
      obtain ⟨hlt, hhit, hleast⟩ := ih k0 hk0
      refine ⟨by simpa using hlt, by simpa using hhit, ?_⟩
      intro m hmk
      cases m with
      | zero => simpa using Bool.eq_false_iff.mpr hm
      | succ m0 => simpa using hleast m0 (by omega)

/-- C5: a non-empty command against an available screen lower-cases the
token and tests it as a substring of each tracked window's lower-cased
class name in enumeration order; the effects are the `force_update`, the
examinations of windows `0..k` only, and a single activation of the first
matching window `k` (so no later window is examined or activated); when no
window matches, every window is examined, nothing is activated, and the
handler still returns normally. -/
theorem focus_app_first_match (s : String) (ws : List (Option String))
    (hne : s ≠ "") :
    (∀ k, findMatchIdx (pyLower s) ws = some k →
       handle_focus_app (some (Json.str s)) (some ws) =
         Except.ok (Effect.forceUpdate ::
           (((List.range (k + 1)).map fun m => Effect.examine m) ++
            [Effect.activateWindow k])) ∧
       strIn (pyLower s) (pyLower ((ws.getD k none).getD "")) = true ∧
       (∀ m, m < k →
          strIn (pyLower s) (pyLower ((ws.getD m none).getD "")) = false)) ∧
    (findMatchIdx (pyLower s) ws = none →
       handle_focus_app (some (Json.str s)) (some ws) =
         Except.ok (Effect.forceUpdate ::
           ((List.range ws.length).map fun m => Effect.examine m))) := by
  have hse : s.isEmpty = false := by
    cases h : s.isEmpty with
    | true => exact absurd ((String.isEmpty_iff s).mp h) hne
    | false => rfl
  have ht : (Json.str s).truthy = true := by simp [Json.truthy, hse]
  constructor
  · intro k hk
    obtain ⟨hlt, hhit, hleast⟩ := findMatchIdx_matches (pyLower s) ws k hk
    refine ⟨?_, hhit, hleast⟩
    simp only [handle_focus_app, ht, if_true]
    rw [focusLoop_eq_of_found (pyLower s) ws 0 k hk]
    simp [Nat.zero_add]
  · intro hnone
    simp only [handle_focus_app, ht, if_true]
    rw [focusLoop_eq_of_none (pyLower s) ws 0 hnone]
    simp [Nat.zero_add]

/-- Witness for C5: `"fire"` against tracked class names
`["firefox", "emacs"]` examines only window 0 and activates it. -/
theorem focus_app_first_match_witness :
    handle_focus_app (some (Json.str "fire"))
        (some [some "firefox", some "emacs"]) =
      Except.ok [Effect.forceUpdate, Effect.examine 0,
                 Effect.activateWindow 0] := by
  have h :=
    ((focus_app_first_match "fire" [some "firefox", some "emacs"]
        (by decide)).1 0 (by rfl)).1
  simpa [List.range_succ, List.range_zero] using h
